import Mathlib

/-!
# Verification of the PySoundFile binding layer

A shallow embedding of `pysoundfile.py`, a thin binding over the native
libsndfile library.  Pure helpers of the source (format encoding/decoding,
slice normalization) become Lean functions; the stateful `SoundFile` object
becomes a structure with explicit state passing, and Python exceptions become
an `Except` result.  The native library itself is an external collaborator:
it is modelled abstractly by a `NativeState` record together with simple
transition functions for the few native entry points the binding calls
(`sf_seek`, `sf_readf_*`, `sf_writef_*`, `sf_error`, `sf_close`, ...).
-/

set_option autoImplicit false
set_option maxRecDepth 8000

/-! ## Format code tables (module-level dicts of the source) -/

/-- The `snd_types` dict: container type name to packed code. -/
def snd_types : List (String × Nat) := [
  ("WAV",   0x010000),
  ("AIFF",  0x020000),
  ("AU",    0x030000),
  ("RAW",   0x040000),
  ("PAF",   0x050000),
  ("SVX",   0x060000),
  ("NIST",  0x070000),
  ("VOC",   0x080000),
  ("IRCAM", 0x0A0000),
  ("W64",   0x0B0000),
  ("MAT4",  0x0C0000),
  ("MAT5",  0x0D0000),
  ("PVF",   0x0E0000),
  ("XI",    0x0F0000),
  ("HTK",   0x100000),
  ("SDS",   0x110000),
  ("AVR",   0x120000),
  ("WAVEX", 0x130000),
  ("SD2",   0x160000),
  ("FLAC",  0x170000),
  ("CAF",   0x180000),
  ("WVE",   0x190000),
  ("OGG",   0x200000),
  ("MPC2K", 0x210000),
  ("RF64",  0x220000)]

/-- The `snd_subtypes` dict: sample subtype name to packed code. -/
def snd_subtypes : List (String × Nat) := [
  ("PCM_S8",    0x0001),
  ("PCM_16",    0x0002),
  ("PCM_24",    0x0003),
  ("PCM_32",    0x0004),
  ("PCM_U8",    0x0005),
  ("FLOAT",     0x0006),
  ("DOUBLE",    0x0007),
  ("ULAW",      0x0010),
  ("ALAW",      0x0011),
  ("IMA_ADPCM", 0x0012),
  ("MS_ADPCM",  0x0013),
  ("GSM610",    0x0020),
  ("VOX_ADPCM", 0x0021),
  ("G721_32",   0x0030),
  ("G723_24",   0x0031),
  ("G723_40",   0x0032),
  ("DWVW_12",   0x0040),
  ("DWVW_16",   0x0041),
  ("DWVW_24",   0x0042),
  ("DWVW_N",    0x0043),
  ("DPCM_8",    0x0050),
  ("DPCM_16",   0x0051),
  ("VORBIS",    0x0060)]

/-- The `snd_endians` dict: byte-order name to packed code. -/
def snd_endians : List (String × Nat) := [
  ("FILE",   0x00000000),
  ("LITTLE", 0x10000000),
  ("BIG",    0x20000000),
  ("CPU",    0x30000000)]

/-- The `_str_types` dict: metadata field name to native string-type id. -/
def _str_types : List (String × Nat) := [
  ("title",       0x01),
  ("copyright",   0x02),
  ("software",    0x03),
  ("artist",      0x04),
  ("comment",     0x05),
  ("date",        0x06),
  ("album",       0x07),
  ("license",     0x08),
  ("tracknumber", 0x09),
  ("genre",       0x10)]

/-- Python's `reverse_dict` helper inside `_decodeformat`: swap keys and
values.  A dict comprehension lets a later entry override an earlier one, so
the swapped list is reversed before the first-match `lookup`. -/
def reverse_dict (d : List (String × Nat)) : List (Nat × String) :=
  (d.map fun p => (p.2, p.1)).reverse

/-- The source's `_encodeformat`: look up each component of a (type, subtype, endianness)
triple and OR the codes together.  A missing key is a Python `KeyError`,
modelled by `none`. -/
def _encodeformat (format : String × String × String) : Option Nat :=
  match List.lookup format.1 snd_types,
        List.lookup format.2.1 snd_subtypes,
        List.lookup format.2.2 snd_endians with
  | some type, some subtype, some endianness => some (type ||| subtype ||| endianness)
  | _, _, _ => none

/-- The source's `_decodeformat`: mask out the three bit fields of a packed format code and
reverse-look-up each; an unknown masked value is a `KeyError`, modelled by
`none`. -/
def _decodeformat (format : Nat) : Option (String × String × String) :=
  let sub_mask  := 0x0000FFFF
  let type_mask := 0x0FFF0000
  let end_mask  := 0x30000000
  match List.lookup (format &&& type_mask) (reverse_dict snd_types),
        List.lookup (format &&& sub_mask) (reverse_dict snd_subtypes),
        List.lookup (format &&& end_mask) (reverse_dict snd_endians) with
  | some type, some subtype, some endianness => some (type, subtype, endianness)
  | _, _, _ => none

/-! ## Mode and seek constants

`_open_modes` maps `0x10/0x20/0x30` to READ/WRITE/RDWR and the constants are
injected into the module namespace; `SEEK_SET/SEEK_CUR/SEEK_END` come from
Python's `os` module.  The same READ/WRITE values double as the native
read-cursor/write-cursor selectors that may be OR'ed into a seek origin. -/

def READ : Nat := 0x10
def WRITE : Nat := 0x20
def RDWR : Nat := 0x30

def SEEK_SET : Nat := 0
def SEEK_CUR : Nat := 1
def SEEK_END : Nat := 2

/-! ## Python values

Python exceptions raised by the binding, and the index values accepted by
`__getitem__`/`__setitem__` (integers, slices, and tuples thereof). -/

/-- The exceptions the binding can raise, with their messages. -/
inductive PyErr where
  | valueError (msg : String)
  | runtimeError (msg : String)
  | indexError (msg : String)
  | attributeError (msg : String)
deriving DecidableEq, Repr

instance exceptDecEq {ε α : Type} [DecidableEq ε] [DecidableEq α] :
    DecidableEq (Except ε α) := fun x y =>
  match x, y with
  | .ok a, .ok b =>
    if h : a = b then .isTrue (congrArg _ h) else .isFalse fun he => h (Except.ok.inj he)
  | .error a, .error b =>
    if h : a = b then .isTrue (congrArg _ h) else .isFalse fun he => h (Except.error.inj he)
  | .ok _, .error _ => .isFalse fun he => Except.noConfusion he
  | .error _, .ok _ => .isFalse fun he => Except.noConfusion he

/-- A frame index: a plain integer or a `slice(start, stop, step)` with
optional (Python `None`) components. -/
inductive PyFrame where
  | idx (i : Int)
  | slc (start stop step : Option Int)
deriving DecidableEq, Repr

/-- Python truthiness of an index object: the integer 0 is falsy, every other
integer and every slice object is truthy. -/
def truthy : PyFrame → Bool
  | .idx i => i != 0
  | .slc _ _ _ => true

/-- An index expression passed to `sf[...]`: one dimension, two dimensions
(a 2-tuple), or a longer tuple (which the source rejects). -/
inductive PyIndex where
  | one (f : PyFrame)
  | two (f : PyFrame) (sel : PyFrame)
  | more (fs : List PyFrame)
deriving DecidableEq, Repr

/-- CPython's `slice.indices(n)`, for the given step (`none` meaning the
default 1); returns the normalized (start, stop, step).  A zero step raises
`ValueError`. -/
def sliceIndices (start stop step : Option Int) (n : Nat) : Except PyErr (Int × Int × Int) :=
  let step := step.getD 1
  if step = 0 then .error (.valueError "slice step cannot be zero")
  else
    let N : Int := n
    if 0 < step then
      let s := match start with
        | none => 0
        | some v => if v < 0 then max (v + N) 0 else min v N
      let t := match stop with
        | none => N
        | some v => if v < 0 then max (v + N) 0 else min v N
      .ok (s, t, step)
    else
      let s := match start with
        | none => N - 1
        | some v => if v < 0 then max (v + N) (-1) else min v (N - 1)
      let t := match stop with
        | none => -1
        | some v => if v < 0 then max (v + N) (-1) else min v (N - 1)
      .ok (s, t, step)

/-- The number of elements selected by a normalized slice (CPython's
`PySlice_AdjustIndices` length formula). -/
def sliceLen (s t step : Int) : Nat :=
  if 0 < step then ((t - s + step - 1) / step).toNat
  else ((s - t - step - 1) / (-step)).toNat

/-- Numpy basic slicing of a row along one axis with a normalized slice. -/
def sliceApply (r : List Int) (s t step : Int) : List Int :=
  (List.range (sliceLen s t step)).map fun k => r.getD (s + step * k).toNat 0

/-! ## The native library model

libsndfile is an external collaborator; the binding treats it as opaque.  We
model the part of its state the binding can observe: the audio data (a list
of frames, each a list of samples — sample values are idealized as integers,
since the binding moves them between buffers unchanged), the per-handle read
and write cursors, the sticky error flag returned by `sf_error`, the code the
next `sf_close` will return, whether `sf_write_sync` has been called, and the
metadata string table. -/

structure NativeState where
  data : List (List Int)
  channels : Nat
  readPos : Nat
  writePos : Nat
  errFlag : Nat
  closeRet : Nat
  synced : Bool
  strs : List (Nat × String)
deriving DecidableEq, Repr

/-- Native `sf_error`: return the handle's sticky error flag. -/
def sf_error (ns : NativeState) : Nat := ns.errFlag

/-- Native `sf_error_number`: the native library's human-readable message for a
numeric error code, modelled as an abstract function of the code. -/
def sf_error_number (err : Nat) : String := "libsndfile error " ++ toString err

/-- Native `sf_seek`: the whence word is SEEK_SET/SEEK_CUR/SEEK_END, optionally
OR'ed with the READ (0x10) or WRITE (0x20) cursor selector; with no selector
both cursors move.  Returns the new absolute position, or -1 (setting the
error flag) when the target is out of range. -/
def sf_seek (ns : NativeState) (frames : Int) (whence : Nat) : Int × NativeState :=
  let total : Int := ns.data.length
  let base := whence &&& 0xF
  let hasR := whence &&& 0x10 != 0
  let hasW := whence &&& 0x20 != 0
  let cur : Int := if hasW && !hasR then ns.writePos else ns.readPos
  let pos : Int := if base = 0 then frames else if base = 1 then cur + frames else total + frames
  if 0 ≤ pos ∧ pos ≤ total then
    (pos, { ns with readPos := if hasR || (!hasR && !hasW) then pos.toNat else ns.readPos,
                    writePos := if hasW || (!hasR && !hasW) then pos.toNat else ns.writePos })
  else (-1, { ns with errFlag := 1 })

/-- Native `sf_readf_*`: read up to `req` frames from the read cursor; returns the
frame count actually read, the samples, and the advanced state. -/
def sf_readf (ns : NativeState) (req : Nat) : Nat × List Int × NativeState :=
  let k := min req (ns.data.length - ns.readPos)
  (k, ((ns.data.drop ns.readPos).take k).flatten,
   { ns with readPos := ns.readPos + k })

/-- Native `sf_writef_*`: overwrite `rows.length` frames at the write cursor,
growing the file if needed, and advance the write cursor. -/
def sf_writef (ns : NativeState) (rows : List (List Int)) : Nat × NativeState :=
  (rows.length,
   { ns with data := ns.data.take ns.writePos ++ rows ++ ns.data.drop (ns.writePos + rows.length),
             writePos := ns.writePos + rows.length })

/-- Native `sf_write_sync`: flush pending native writes. -/
def sf_write_sync (ns : NativeState) : NativeState := { ns with synced := true }

/-- Native `sf_close`: release the native handle, returning an error code. -/
def sf_close (ns : NativeState) : Nat × NativeState := (ns.closeRet, ns)

/-- Native `sf_get_string`: fetch a metadata string, NULL (here `none`) if absent. -/
def sf_get_string (ns : NativeState) (str_type : Nat) : Option String :=
  List.lookup str_type ns.strs

/-- Native `sf_set_string`: store a metadata string; returns the 0 success code. -/
def sf_set_string (ns : NativeState) (str_type : Nat) (value : String) : Nat × NativeState :=
  (0, { ns with strs := (str_type, value) :: ns.strs })

/-! ## The SoundFile object -/

/-- A `SoundFile`: the open mode, the metadata cached from the native info
block at open time, the `_file` pointer (`true` while it is not None), and
the native handle state. -/
structure SoundFile where
  mode : Nat
  frames : Nat
  sample_rate : Nat
  channels : Nat
  format : String × String × String
  sections : Nat
  seekable : Bool
  _file : Bool
  native : NativeState
deriving DecidableEq, Repr

/-- The `closed` property: `self._file is None`. -/
def SoundFile.closed (sf : SoundFile) : Bool := !sf._file

/-- The source's `_check_if_closed`: raise `ValueError` when the file is closed. -/
def _check_if_closed (sf : SoundFile) : Except PyErr Unit :=
  if sf.closed then .error (.valueError "I/O operation on closed file") else .ok ()

/-- The source's `_handle_error_number`: raise `RuntimeError` with the native message for
any non-zero error code. -/
def _handle_error_number (err : Nat) : Except PyErr Unit :=
  if err ≠ 0 then .error (.runtimeError (sf_error_number err)) else .ok ()

/-- The source's `_handle_error`: check the error flag of the SNDFILE structure. -/
def _handle_error (sf : SoundFile) : Except PyErr Unit :=
  match _check_if_closed sf with
  | .error e => .error e
  | .ok _ => _handle_error_number (sf_error sf.native)

/-- The source's `seek`: set the read and/or write position; returns the native result
(which is negative on native failure, with no error-flag check). -/
def SoundFile.seek (sf : SoundFile) (frames : Int) (whence : Nat) :
    Except PyErr Int × SoundFile :=
  match _check_if_closed sf with
  | .error e => (.error e, sf)
  | .ok _ =>
    let (r, ns') := sf_seek sf.native frames whence
    (.ok r, { sf with native := ns' })

/-- The four NumPy dtypes the binding supports, plus everything else. -/
inductive NpDtype where
  | float64
  | float32
  | int32
  | int16
  | other
deriving DecidableEq, Repr

/-- A NumPy array argument: its dtype and its (frames × channels) data. -/
structure NpArray where
  dtype : NpDtype
  data : List (List Int)
deriving DecidableEq, Repr

/-- The source's `np.reshape(l, (rows, cols))` for the exact-size case used by `read`. -/
def reshape (rows cols : Nat) (l : List Int) : List (List Int) :=
  match rows with
  | 0 => []
  | r + 1 => l.take cols :: reshape r cols (l.drop cols)

/-- The source's `read(frames, format)`: read frames from the current read position as a
(frames × channels) array; `frames < 0` reads to the end of the file. -/
def SoundFile.read (sf : SoundFile) (frames : Int) (format : NpDtype) :
    Except PyErr (List (List Int)) × SoundFile :=
  match _check_if_closed sf with
  | .error e => (.error e, sf)
  | .ok _ =>
    if sf.mode = WRITE then
      (.error (.runtimeError "Cannot read from file opened in WRITE mode!"), sf)
    else if format = .other then
      (.error (.valueError "Can only read int16, int32, float32 and float64"), sf)
    else
      -- frames < 0: read to the end; `curr = self.seek(0, SEEK_CUR | READ)`
      -- (the handle is open here, so the method's closed check passes)
      let (frames, sf) :=
        if frames < 0 then
          let (curr, ns') := sf_seek sf.native 0 (SEEK_CUR ||| READ)
          ((sf.frames : Int) - curr, { sf with native := ns' })
        else (frames, sf)
      -- `ffi.new(formats[format], frames*self.channels)` rejects a negative
      -- array length
      if frames < 0 then (.error (.valueError "negative array length"), sf)
      else
        let (read, samples, ns') := sf_readf sf.native frames.toNat
        let buffer := samples ++ List.replicate (frames.toNat * sf.channels - samples.length) 0
        match _handle_error { sf with native := ns' } with
        | .error e => (.error e, { sf with native := ns' })
        | .ok _ =>
          let np_data := buffer.take (read * sf.channels)
          (.ok (reshape read sf.channels np_data), { sf with native := ns' })

/-- The source's `write(data)`: write a (frames × channels) array at the write position;
returns the number of frames written. -/
def SoundFile.write (sf : SoundFile) (arr : NpArray) : Except PyErr Nat × SoundFile :=
  match _check_if_closed sf with
  | .error e => (.error e, sf)
  | .ok _ =>
    if sf.mode = READ then
      (.error (.runtimeError "Cannot write to file opened in READ mode!"), sf)
    else if arr.dtype = .other then
      (.error (.valueError "Data must be int16, int32, float32 or float64"), sf)
    else
      let (written, ns') := sf_writef sf.native arr.data
      match _handle_error { sf with native := ns' } with
      | .error e => (.error e, { sf with native := ns' })
      | .ok _ => (.ok written, { sf with native := ns' })

/-- The source's `flush`: write unwritten data to disk. -/
def SoundFile.flush (sf : SoundFile) : Except PyErr Unit × SoundFile :=
  match _check_if_closed sf with
  | .error e => (.error e, sf)
  | .ok _ => (.ok (), { sf with native := sf_write_sync sf.native })

/-- The source's `close`: close the file; can be called multiple times.  The `_file`
pointer is cleared before the close error code is inspected. -/
def SoundFile.close (sf : SoundFile) : Except PyErr Unit × SoundFile :=
  if sf.closed then (.ok (), sf)
  else
    match SoundFile.flush sf with
    | (.error e, sf1) => (.error e, sf1)
    | (.ok _, sf1) =>
      let (err, ns') := sf_close sf1.native
      let sf2 := { sf1 with native := ns', _file := false }
      match _handle_error_number err with
      | .error e => (.error e, sf2)
      | .ok _ => (.ok (), sf2)

/-- The source's `__setattr__` for a metadata field name: set the text field through the
native string table (plain attribute assignment for other names is outside
the model and is a no-op here). -/
def SoundFile.setattr (sf : SoundFile) (name value : String) :
    Except PyErr Unit × SoundFile :=
  match List.lookup name _str_types with
  | some code =>
    match _check_if_closed sf with
    | .error e => (.error e, sf)
    | .ok _ =>
      if sf.mode = READ then
        (.error (.runtimeError ("Can not change " ++ name ++ " of file in read mode")), sf)
      else
        let (err, ns') := sf_set_string sf.native code value
        match _handle_error_number err with
        | .error e => (.error e, { sf with native := ns' })
        | .ok _ => (.ok (), { sf with native := ns' })
  | none => (.ok (), sf)

/-- The source's `__getattr__` for a metadata field name: read the text field, mapping a
NULL result to the empty string; unknown names raise `AttributeError`. -/
def SoundFile.getattr (sf : SoundFile) (name : String) : Except PyErr String :=
  match List.lookup name _str_types with
  | some code =>
    match _check_if_closed sf with
    | .error e => .error e
    | .ok _ =>
      match sf_get_string sf.native code with
      | some s => .ok s
      | none => .ok ""
  | none => .error (.attributeError ("SoundFile has no attribute " ++ name))

/-- The source's `_get_slice_bounds`: turn an index or slice into (start, stop) against
`len(self) = self.frames`, requiring step 1 and clamping `start > stop` to an
empty range. -/
def _get_slice_bounds (sf : SoundFile) (frame : PyFrame) : Except PyErr (Int × Int) :=
  let parts := match frame with
    | .idx i => (some i, some (i + 1), (none : Option Int))
    | .slc a b c => (a, b, c)
  match sliceIndices parts.1 parts.2.1 parts.2.2 sf.frames with
  | .error e => .error e
  | .ok (start, stop, step) =>
    if step ≠ 1 then .error (.runtimeError "Step size must be 1!")
    else if start > stop then .ok (start, start)
    else .ok (start, stop)

/-- A value returned by `__getitem__`: a (frames × channels) array, or a
one-dimensional array when an integer channel selector was applied. -/
inductive NpResult where
  | arr2 (rows : List (List Int))
  | arr1 (col : List Int)
deriving DecidableEq, Repr

/-- The source's `data[(slice(None), second_frame)]`: numpy channel selection on the
second axis of a (frames × channels) array. -/
def selectChannels (channels : Nat) (rows : List (List Int)) (sel : PyFrame) :
    Except PyErr NpResult :=
  match sel with
  | .idx i =>
    let j := if i < 0 then i + channels else i
    if 0 ≤ j ∧ j < (channels : Int) then
      .ok (.arr1 (rows.map fun r => r.getD j.toNat 0))
    else .error (.indexError "index is out of bounds")
  | .slc a b c =>
    match sliceIndices a b c channels with
    | .error e => .error e
    | .ok (s, t, step) => .ok (.arr2 (rows.map fun r => sliceApply r s t step))

/-- The final step of `__getitem__`: apply the second (channel) selector only
when it is truthy (`if second_frame:`). -/
def applySecond (channels : Nat) (rows : List (List Int)) :
    Option PyFrame → Except PyErr NpResult
  | some sel => if truthy sel then selectChannels channels rows sel else .ok (.arr2 rows)
  | none => .ok (.arr2 rows)

/-- The body of `__getitem__` after tuple unpacking: save the read cursor,
seek to the slice start, read the slice at float64, restore the cursor, then
apply any channel selector. -/
def getitemCore (sf : SoundFile) (frame : PyFrame) (second : Option PyFrame) :
    Except PyErr NpResult × SoundFile :=
  match _get_slice_bounds sf frame with
  | .error e => (.error e, sf)
  | .ok (start, stop) =>
    match SoundFile.seek sf 0 (SEEK_CUR ||| READ) with
    | (.error e, sf) => (.error e, sf)
    | (.ok curr, sf) =>
      match SoundFile.seek sf start (SEEK_SET ||| READ) with
      | (.error e, sf) => (.error e, sf)
      | (.ok _, sf) =>
        match SoundFile.read sf (stop - start) .float64 with
        | (.error e, sf) => (.error e, sf)
        | (.ok rows, sf) =>
          match SoundFile.seek sf curr (SEEK_SET ||| READ) with
          | (.error e, sf) => (.error e, sf)
          | (.ok _, sf) =>
            match applySecond sf.channels rows second with
            | .error e => (.error e, sf)
            | .ok res => (.ok res, sf)

/-- The source's `__getitem__` (read_slice): at most two dimensions; the first selects
frames, an optional second selects channels. -/
def SoundFile.getitem (sf : SoundFile) (index : PyIndex) :
    Except PyErr NpResult × SoundFile :=
  match index with
  | .one f => getitemCore sf f none
  | .two f sel => getitemCore sf f (some sel)
  | .more _ =>
    (.error (.attributeError "SoundFile can only be accessed in one or two dimensions"), sf)

/-- The source's `__setitem__` (write_slice): the data must exactly fill the normalized
range; the write cursor is saved and restored around a single write. -/
def SoundFile.setitem (sf : SoundFile) (frame : PyFrame) (arr : NpArray) :
    Except PyErr NpArray × SoundFile :=
  if sf.mode = READ then
    (.error (.runtimeError "Cannot write to file opened in READ mode!"), sf)
  else
    match _get_slice_bounds sf frame with
    | .error e => (.error e, sf)
    | .ok (start, stop) =>
      if stop - start ≠ (arr.data.length : Int) then
        (.error (.indexError ("Could not fit data of length " ++ toString arr.data.length
          ++ " into slice of length " ++ toString (stop - start))), sf)
      else
        match SoundFile.seek sf 0 (SEEK_CUR ||| WRITE) with
        | (.error e, sf) => (.error e, sf)
        | (.ok curr, sf) =>
          match SoundFile.seek sf start (SEEK_SET ||| WRITE) with
          | (.error e, sf) => (.error e, sf)
          | (.ok _, sf) =>
            match SoundFile.write sf arr with
            | (.error e, sf) => (.error e, sf)
            | (.ok _, sf) =>
              match SoundFile.seek sf curr (SEEK_SET ||| WRITE) with
              | (.error e, sf) => (.error e, sf)
              | (.ok _, sf) => (.ok arr, sf)

/-- Well-formedness of an open handle: the `_file` pointer is live, the
cached frame and channel counts agree with the native state, every stored
frame has one sample per channel, the read cursor is in range, and no native
error is pending. -/
def WF (sf : SoundFile) : Prop :=
  sf._file = true ∧
  sf.frames = sf.native.data.length ∧
  sf.channels = sf.native.channels ∧
  (∀ r ∈ sf.native.data, r.length = sf.native.channels) ∧
  sf.native.readPos ≤ sf.native.data.length ∧
  sf.native.errFlag = 0

/-- Frames left between the native read cursor and the end of the file. -/
def availFrames (sf : SoundFile) : Nat :=
  sf.native.data.length - sf.native.readPos

/-- The frame count a `read` call will deliver: the request (or, for a
negative sentinel, the rest of the file) capped by what is available. -/
def readCount (sf : SoundFile) (n : Int) : Nat :=
  min (if n < 0 then availFrames sf else n.toNat) (availFrames sf)

/-! ## Concrete handles used as witnesses -/

/-- A healthy native state: four mono frames, cursors at 0, no error. -/
def nsW : NativeState :=
  { data := [[1], [2], [3], [4]], channels := 1, readPos := 0, writePos := 0,
    errFlag := 0, closeRet := 0, synced := false, strs := [] }

/-- An open read/write handle over `nsW`. -/
def sfRW : SoundFile :=
  { mode := RDWR, frames := 4, sample_rate := 44100, channels := 1,
    format := ("WAV", "PCM_16", "FILE"), sections := 1, seekable := true,
    _file := true, native := nsW }

/-- The same handle opened in READ mode. -/
def sfR : SoundFile := { sfRW with mode := READ }

/-- The same handle opened in WRITE mode. -/
def sfW : SoundFile := { sfRW with mode := WRITE }

/-- A closed handle (`_file is None`). -/
def sfClosed : SoundFile := { sfRW with _file := false }

/-- An open handle whose native error flag is set (and read cursor at 3). -/
def sfErr : SoundFile :=
  { sfRW with native := { nsW with errFlag := 1, readPos := 3 } }

/-- An open handle whose native close will report error code 2. -/
def sfBadClose : SoundFile :=
  { sfRW with native := { nsW with closeRet := 2 } }

/-- State `sfBadClose` after the state changes a `close()` call makes. -/
def sfBadClosed : SoundFile :=
  { sfBadClose with _file := false, native := { sfBadClose.native with synced := true } }

/-! # Theorems

## C1: the format triple round-trip -/

/-- Every key of each table looks up to its own code (no duplicate keys). -/
lemma snd_types_lookup : ∀ p ∈ snd_types, List.lookup p.1 snd_types = some p.2 := by
  decide

lemma snd_subtypes_lookup : ∀ p ∈ snd_subtypes, List.lookup p.1 snd_subtypes = some p.2 := by
  decide

lemma snd_endians_lookup : ∀ p ∈ snd_endians, List.lookup p.1 snd_endians = some p.2 := by
  decide

/-- Every code of each table reverse-looks-up to its own key (no duplicate
values). -/
lemma snd_types_rlookup : ∀ p ∈ snd_types, List.lookup p.2 (reverse_dict snd_types) = some p.1 := by
  decide

lemma snd_subtypes_rlookup :
    ∀ p ∈ snd_subtypes, List.lookup p.2 (reverse_dict snd_subtypes) = some p.1 := by
  decide

lemma snd_endians_rlookup :
    ∀ p ∈ snd_endians, List.lookup p.2 (reverse_dict snd_endians) = some p.1 := by
  decide

set_option maxHeartbeats 1600000 in
/-- The three bit fields are disjoint: each mask of `_decodeformat` recovers
the corresponding component from the OR of any three codes. -/
lemma mask_recover :
    ∀ p ∈ snd_types, ∀ q ∈ snd_subtypes, ∀ r ∈ snd_endians,
      (p.2 ||| q.2 ||| r.2) &&& 0x0FFF0000 = p.2 ∧
      (p.2 ||| q.2 ||| r.2) &&& 0x0000FFFF = q.2 ∧
      (p.2 ||| q.2 ||| r.2) &&& 0x30000000 = r.2 := by
  decide

/-- decode is a left inverse of encode on the valid triples. -/
lemma format_encode_decode :
    ∀ a ∈ snd_types.map Prod.fst, ∀ b ∈ snd_subtypes.map Prod.fst,
      ∀ c ∈ snd_endians.map Prod.fst,
        (_encodeformat (a, b, c)).bind _decodeformat = some (a, b, c) := by
  intro a ha b hb c hc
  obtain ⟨p, hp, rfl⟩ := List.mem_map.1 ha
  obtain ⟨q, hq, rfl⟩ := List.mem_map.1 hb
  obtain ⟨r, hr, rfl⟩ := List.mem_map.1 hc
  have m := mask_recover p hp q hq r hr
  simp [_encodeformat, snd_types_lookup p hp, snd_subtypes_lookup q hq,
    snd_endians_lookup r hr, _decodeformat, m.1, m.2.1, m.2.2,
    snd_types_rlookup p hp, snd_subtypes_rlookup q hq, snd_endians_rlookup r hr]

/-- C1.  For every valid format triple t (each component drawn from its
table), `_decodeformat (_encodeformat t) = t`; and for every packed integer
in the image of `_encodeformat` on valid triples,
`_encodeformat (_decodeformat x) = x`. -/
theorem c1_format_roundtrip :
    (∀ a ∈ snd_types.map Prod.fst, ∀ b ∈ snd_subtypes.map Prod.fst,
      ∀ c ∈ snd_endians.map Prod.fst,
        (_encodeformat (a, b, c)).bind _decodeformat = some (a, b, c)) ∧
    (∀ x : Nat,
      (∃ a ∈ snd_types.map Prod.fst, ∃ b ∈ snd_subtypes.map Prod.fst,
        ∃ c ∈ snd_endians.map Prod.fst, _encodeformat (a, b, c) = some x) →
      (_decodeformat x).bind _encodeformat = some x) := by
  refine ⟨format_encode_decode, ?_⟩
  rintro x ⟨a, ha, b, hb, c, hc, henc⟩
  have h := format_encode_decode a ha b hb c hc
  rw [henc] at h
  simp only [Option.some_bind] at h
  rw [h, Option.some_bind, henc]

/-- Witness for C1 at the WAV/PCM_16/FILE triple and its packed code. -/
theorem c1_format_roundtrip_witness :
    (_encodeformat ("WAV", "PCM_16", "FILE")).bind _decodeformat
        = some ("WAV", "PCM_16", "FILE") ∧
    (_decodeformat 0x010002).bind _encodeformat = some 0x010002 :=
  ⟨c1_format_roundtrip.1 "WAV" (by decide) "PCM_16" (by decide) "FILE" (by decide),
   c1_format_roundtrip.2 0x010002
     ⟨"WAV", by decide, "PCM_16", by decide, "FILE", by decide, by decide⟩⟩

/-! ## Helper lemmas about the handle model -/

lemma sf_seek_cur_read (ns : NativeState) (h : ns.readPos ≤ ns.data.length) :
    sf_seek ns 0 (SEEK_CUR ||| READ) = ((ns.readPos : Int), ns) := by
  have e1 : (SEEK_CUR ||| READ) &&& 15 = 1 := by decide
  have e2 : (SEEK_CUR ||| READ) &&& 32 = 0 := by decide
  have e3 : (SEEK_CUR ||| READ) &&& 16 = 16 := by decide
  unfold sf_seek
  rw [e1, e2, e3]
  norm_num
  omega

lemma sf_seek_set_read (ns : NativeState) (p : Int) (h0 : 0 ≤ p) (h1 : p ≤ (ns.data.length : Int)) :
    sf_seek ns p (SEEK_SET ||| READ) = (p, { ns with readPos := p.toNat }) := by
  have e1 : (SEEK_SET ||| READ) &&& 15 = 0 := by decide
  have e2 : (SEEK_SET ||| READ) &&& 32 = 0 := by decide
  have e3 : (SEEK_SET ||| READ) &&& 16 = 16 := by decide
  unfold sf_seek
  rw [e1, e2, e3]
  norm_num
  omega

lemma seek_open (sf : SoundFile) (frames : Int) (whence : Nat) (hopen : sf._file = true) :
    SoundFile.seek sf frames whence =
      (.ok (sf_seek sf.native frames whence).1,
       { sf with native := (sf_seek sf.native frames whence).2 }) := by
  simp [SoundFile.seek, _check_if_closed, SoundFile.closed, hopen]

lemma flatten_length_const (l : List (List Int)) (c : Nat) (h : ∀ r ∈ l, r.length = c) :
    l.flatten.length = l.length * c := by
  induction l with
  | nil => simp
  | cons r rs ih =>
    simp only [List.flatten_cons, List.length_append, List.length_cons]
    rw [h r (List.mem_cons_self r rs), ih fun x hx => h x (List.mem_cons_of_mem r hx)]
    ring

lemma reshape_flatten (l : List (List Int)) (c : Nat) (h : ∀ r ∈ l, r.length = c) :
    reshape l.length c l.flatten = l := by
  induction l with
  | nil => rfl
  | cons r rs ih =>
    have hr := h r (List.mem_cons_self r rs)
    simp only [List.length_cons, reshape, List.flatten_cons]
    rw [List.take_left' hr, List.drop_left' hr, ih fun x hx => h x (List.mem_cons_of_mem r hx)]

lemma take_flatten_pad (l : List (List Int)) (c pad : Nat) (h : ∀ r ∈ l, r.length = c) :
    (l.flatten ++ List.replicate pad 0).take (l.length * c) = l.flatten := by
  rw [← flatten_length_const l c h, List.take_left]

lemma sf_readf_eq (ns : NativeState) (m : Nat) :
    sf_readf ns m =
      (min m (ns.data.length - ns.readPos),
       ((ns.data.drop ns.readPos).take (min m (ns.data.length - ns.readPos))).flatten,
       { ns with readPos := ns.readPos + min m (ns.data.length - ns.readPos) }) := rfl

lemma handle_error_ok (sf : SoundFile) (hopen : sf._file = true)
    (herr : sf.native.errFlag = 0) : _handle_error sf = .ok () := by
  simp [_handle_error, _check_if_closed, SoundFile.closed, hopen, sf_error, herr,
    _handle_error_number]

lemma read_ok (sf : SoundFile) (n : Int) (fmt : NpDtype)
    (hwf : WF sf) (hm : sf.mode ≠ WRITE) (hfmt : fmt ≠ .other) :
    SoundFile.read sf n fmt =
      (.ok ((sf.native.data.drop sf.native.readPos).take (readCount sf n)),
       { sf with native := { sf.native with readPos := sf.native.readPos + readCount sf n } }) := by
  obtain ⟨hopen, hfr, hch, hrows, hpos, herr⟩ := hwf
  have hwin : ∀ r ∈ (sf.native.data.drop sf.native.readPos).take (readCount sf n),
      r.length = sf.native.channels := fun r hr =>
    hrows r (List.mem_of_mem_drop (List.mem_of_mem_take hr))
  have hwl : ((sf.native.data.drop sf.native.readPos).take (readCount sf n)).length
      = readCount sf n := by
    simp only [List.length_take, List.length_drop]
    simp only [readCount, availFrames]
    omega
  have htake : ∀ pad,
      (((sf.native.data.drop sf.native.readPos).take (readCount sf n)).flatten
        ++ List.replicate pad 0).take (readCount sf n * sf.native.channels)
      = ((sf.native.data.drop sf.native.readPos).take (readCount sf n)).flatten := by
    intro pad
    have h := take_flatten_pad ((sf.native.data.drop sf.native.readPos).take (readCount sf n))
      sf.native.channels pad hwin
    rwa [hwl] at h
  have hresh : reshape (readCount sf n) sf.native.channels
      (((sf.native.data.drop sf.native.readPos).take (readCount sf n)).flatten)
      = (sf.native.data.drop sf.native.readPos).take (readCount sf n) := by
    have h := reshape_flatten ((sf.native.data.drop sf.native.readPos).take (readCount sf n))
      sf.native.channels hwin
    rwa [hwl] at h
  by_cases hn : n < 0
  · simp only [SoundFile.read, _check_if_closed, SoundFile.closed, hopen, Bool.not_true,
      Bool.false_eq_true, if_false, hm, if_neg, hfmt, hn, if_true,
      sf_seek_cur_read sf.native hpos]
    rw [if_neg (by omega : ¬ ((sf.frames : Int) - (sf.native.readPos : Int) < 0))]
    have hreq : ((sf.frames : Int) - (sf.native.readPos : Int)).toNat = availFrames sf := by
      simp only [availFrames]; omega
    rw [hreq, sf_readf_eq]
    have hmin : min (availFrames sf) (sf.native.data.length - sf.native.readPos)
        = readCount sf n := by simp [readCount, if_pos hn, availFrames]
    simp only [hmin]
    split
    next e heq =>
      simp [_handle_error, _check_if_closed, SoundFile.closed, sf_error,
        _handle_error_number, herr, hopen] at heq
    next a heq =>
      rw [hch]
      simp only [htake, hresh, hopen]
  · simp only [SoundFile.read, _check_if_closed, SoundFile.closed, hopen, Bool.not_true,
      Bool.false_eq_true, if_false, hm, if_neg, hfmt, if_true, if_false]
    rw [if_neg hn, if_neg hn, sf_readf_eq]
    have hmin : min n.toNat (sf.native.data.length - sf.native.readPos) = readCount sf n := by
      simp [readCount, if_neg hn, availFrames]
    simp only [hmin]
    split
    next e heq =>
      simp [_handle_error, _check_if_closed, SoundFile.closed, sf_error,
        _handle_error_number, herr, hopen] at heq
    next a heq =>
      rw [hch]
      simp only [htake, hresh, hopen]

lemma sliceIndices_pos_range (a b c : Option Int) (n : Nat) (s t st : Int)
    (h : sliceIndices a b c n = .ok (s, t, st)) (hst : 0 < st) :
    0 ≤ s ∧ s ≤ (n : Int) ∧ 0 ≤ t ∧ t ≤ (n : Int) := by
  simp only [sliceIndices] at h
  split at h
  · exact absurd h (by simp)
  · split at h
    · rcases a with _ | av <;> rcases b with _ | bv <;>
        (simp only [Except.ok.injEq, Prod.mk.injEq] at h
         obtain ⟨hs, ht, hstep⟩ := h
         rw [← hs, ← ht]
         (try split_ifs) <;> omega)
    · simp only [Except.ok.injEq, Prod.mk.injEq] at h
      obtain ⟨hs, ht, hstep⟩ := h
      omega

lemma gsb_idx (sf : SoundFile) (i : Int) :
    _get_slice_bounds sf (.idx i) = _get_slice_bounds sf (.slc (some i) (some (i + 1)) none) := rfl

lemma gsb_range_slc (sf : SoundFile) (a b c : Option Int) (s t : Int)
    (hb : _get_slice_bounds sf (.slc a b c) = .ok (s, t)) :
    0 ≤ s ∧ s ≤ t ∧ t ≤ (sf.frames : Int) := by
  simp only [_get_slice_bounds] at hb
  rcases hsol : sliceIndices a b c sf.frames with e | ⟨s0, t0, st0⟩ <;> rw [hsol] at hb <;>
    simp only [] at hb
  · exact absurd hb (by simp)
  · have hst : st0 = 1 := by
      by_contra hne
      rw [if_pos hne] at hb
      exact absurd hb (by simp)
    rw [if_neg (by simp [hst])] at hb
    have hr := sliceIndices_pos_range a b c sf.frames s0 t0 st0 hsol (by omega)
    by_cases hgt : s0 > t0
    · rw [if_pos hgt] at hb
      simp only [Except.ok.injEq, Prod.mk.injEq] at hb
      obtain ⟨rfl, rfl⟩ := hb
      omega
    · rw [if_neg hgt] at hb
      simp only [Except.ok.injEq, Prod.mk.injEq] at hb
      obtain ⟨rfl, rfl⟩ := hb
      omega

lemma gsb_range (sf : SoundFile) (f : PyFrame) (s t : Int)
    (hb : _get_slice_bounds sf f = .ok (s, t)) :
    0 ≤ s ∧ s ≤ t ∧ t ≤ (sf.frames : Int) := by
  cases f with
  | idx i => exact gsb_range_slc sf _ _ _ s t (gsb_idx sf i ▸ hb)
  | slc a b c => exact gsb_range_slc sf a b c s t hb

lemma getitem_ok (sf : SoundFile) (f : PyFrame) (s t : Int)
    (hwf : WF sf) (hm : sf.mode ≠ WRITE)
    (hb : _get_slice_bounds sf f = .ok (s, t)) :
    getitemCore sf f none =
      (.ok (.arr2 ((sf.native.data.drop s.toNat).take (t - s).toNat)), sf) := by
  obtain ⟨hopen, hfr, hch, hrows, hpos, herr⟩ := hwf
  have hr := gsb_range sf f s t hb
  obtain ⟨mo, fr, sr, ch, fo, se, sk, fi, d, c, rp, wp, ef, cr, sy, sg⟩ := sf
  simp only [] at hopen hfr hch hrows hpos herr hr hb ⊢
  subst hopen herr hfr hch
  unfold getitemCore
  rw [hb]
  simp only []
  rw [seek_open _ 0 (SEEK_CUR ||| READ) rfl, sf_seek_cur_read _ hpos]
  simp only []
  rw [seek_open _ s (SEEK_SET ||| READ) rfl, sf_seek_set_read _ s hr.1 (by simp only []; omega)]
  simp only []
  rw [read_ok]
  have hrc1 : readCount
      { mode := mo, frames := d.length, sample_rate := sr, channels := ch, format := fo,
        sections := se, seekable := sk, _file := true,
        native := { data := d, channels := ch, readPos := s.toNat, writePos := wp,
                    errFlag := 0, closeRet := cr, synced := sy, strs := sg } } (t - s)
      = (t - s).toNat := by
    simp only [readCount, availFrames]
    rw [if_neg (by omega : ¬ (t - s < 0))]
    omega
  rw [hrc1]
  simp only []
  rw [seek_open _ (rp : Int) (SEEK_SET ||| READ) rfl,
    sf_seek_set_read _ (rp : Int) (by omega) (by simp only []; omega)]
  simp only [applySecond, Int.toNat_natCast]
  · exact ⟨rfl, rfl, rfl, hrows, by simp only []; omega, rfl⟩
  · exact hm
  · simp

lemma handle_error_err (sf : SoundFile) (hopen : sf._file = true)
    (he : sf.native.errFlag ≠ 0) :
    _handle_error sf = .error (.runtimeError (sf_error_number sf.native.errFlag)) := by
  simp [_handle_error, _check_if_closed, SoundFile.closed, hopen, sf_error,
    _handle_error_number, he]

/-- C2 (amended).  The binding's read and write check the native error flag
immediately after invoking the native library and convert a non-zero flag
into a raised RuntimeError carrying the native library's message; seek
performs no such check and simply returns the native library's return value
(negative on native failure). -/
theorem c2_amended_error_checks (sf : SoundFile) (n frames : Int) (whence : Nat)
    (fmt : NpDtype) (arr : NpArray) (hopen : sf._file = true) :
    (sf.native.errFlag ≠ 0 → sf.mode ≠ WRITE → fmt ≠ .other → 0 ≤ n →
      (SoundFile.read sf n fmt).1
        = .error (.runtimeError (sf_error_number sf.native.errFlag))) ∧
    (sf.native.errFlag ≠ 0 → sf.mode ≠ READ → arr.dtype ≠ .other →
      (SoundFile.write sf arr).1
        = .error (.runtimeError (sf_error_number sf.native.errFlag))) ∧
    (SoundFile.seek sf frames whence).1 = .ok (sf_seek sf.native frames whence).1 := by
  refine ⟨?_, ?_, ?_⟩
  · intro he hm hfmt hn
    simp only [SoundFile.read, _check_if_closed, SoundFile.closed, hopen, Bool.not_true,
      Bool.false_eq_true, if_false, hm, if_neg, hfmt]
    rw [if_neg (by omega : ¬ n < 0), if_neg (by omega : ¬ n < 0)]
    split
    next e heq =>
      simp only [_handle_error, _check_if_closed, SoundFile.closed, hopen, Bool.not_true,
        Bool.false_eq_true, if_false, sf_error, sf_readf, _handle_error_number] at heq
      rw [if_pos he] at heq
      simpa using heq.symm
    next a heq =>
      simp only [_handle_error, _check_if_closed, SoundFile.closed, hopen, Bool.not_true,
        Bool.false_eq_true, if_false, sf_error, sf_readf, _handle_error_number] at heq
      rw [if_pos he] at heq
      exact Except.noConfusion heq
  · intro he hm hdt
    simp only [SoundFile.write, _check_if_closed, SoundFile.closed, hopen, Bool.not_true,
      Bool.false_eq_true, if_false, hm, if_neg, hdt]
    split
    next e heq =>
      simp only [_handle_error, _check_if_closed, SoundFile.closed, hopen, Bool.not_true,
        Bool.false_eq_true, if_false, sf_error, sf_writef, _handle_error_number] at heq
      rw [if_pos he] at heq
      simpa using heq.symm
    next a heq =>
      simp only [_handle_error, _check_if_closed, SoundFile.closed, hopen, Bool.not_true,
        Bool.false_eq_true, if_false, sf_error, sf_writef, _handle_error_number] at heq
      rw [if_pos he] at heq
      exact Except.noConfusion heq
  · simp [SoundFile.seek, _check_if_closed, SoundFile.closed, hopen]

/-- C3.  On a handle opened in Read mode, write, write_slice
(`__setitem__`) and metadata-set raise the mode RuntimeError while read
succeeds; on a handle opened in Write mode, read raises the mode
RuntimeError. -/
theorem c3_mode_gating (sf : SoundFile) (n : Int) (fmt : NpDtype) (arr : NpArray)
    (f : PyFrame) (name value : String) (hwf : WF sf) (hfmt : fmt ≠ .other)
    (hname : (List.lookup name _str_types).isSome) :
    (sf.mode = READ →
      (SoundFile.write sf arr).1
          = .error (.runtimeError "Cannot write to file opened in READ mode!") ∧
      (SoundFile.setitem sf f arr).1
          = .error (.runtimeError "Cannot write to file opened in READ mode!") ∧
      (SoundFile.setattr sf name value).1
          = .error (.runtimeError ("Can not change " ++ name ++ " of file in read mode")) ∧
      ∃ rows sf', SoundFile.read sf n fmt = (.ok rows, sf')) ∧
    (sf.mode = WRITE →
      (SoundFile.read sf n fmt).1
          = .error (.runtimeError "Cannot read from file opened in WRITE mode!")) := by
  obtain ⟨hopen, hfr, hch, hrows, hpos, herr⟩ := hwf
  constructor
  · intro hmode
    obtain ⟨code, hcode⟩ := Option.isSome_iff_exists.1 hname
    refine ⟨?_, ?_, ?_, ?_⟩
    · simp [SoundFile.write, _check_if_closed, SoundFile.closed, hopen, hmode]
    · simp [SoundFile.setitem, hmode]
    · simp [SoundFile.setattr, hcode, _check_if_closed, SoundFile.closed, hopen, hmode]
    · exact ⟨_, _, read_ok sf n fmt ⟨hopen, hfr, hch, hrows, hpos, herr⟩
        (by rw [hmode]; decide) hfmt⟩
  · intro hmode
    simp [SoundFile.read, _check_if_closed, SoundFile.closed, hopen, hmode]

/-- C4.  After close() has completed (`_file is None`), any call to read,
write, seek, flush, or metadata get/set raises the closed-handle
ValueError. -/
theorem c4_closed_handle (sf : SoundFile) (n frames : Int) (whence : Nat) (fmt : NpDtype)
    (arr : NpArray) (name value : String) (hclosed : sf._file = false)
    (hname : (List.lookup name _str_types).isSome) :
    (SoundFile.read sf n fmt).1 = .error (.valueError "I/O operation on closed file") ∧
    (SoundFile.write sf arr).1 = .error (.valueError "I/O operation on closed file") ∧
    (SoundFile.seek sf frames whence).1
        = .error (.valueError "I/O operation on closed file") ∧
    (SoundFile.flush sf).1 = .error (.valueError "I/O operation on closed file") ∧
    SoundFile.getattr sf name = .error (.valueError "I/O operation on closed file") ∧
    (SoundFile.setattr sf name value).1
        = .error (.valueError "I/O operation on closed file") := by
  obtain ⟨code, hcode⟩ := Option.isSome_iff_exists.1 hname
  refine ⟨?_, ?_, ?_, ?_, ?_, ?_⟩ <;>
    simp [SoundFile.read, SoundFile.write, SoundFile.seek, SoundFile.flush,
      SoundFile.getattr, SoundFile.setattr, hcode,
      _check_if_closed, SoundFile.closed, hclosed]

/-- C9.  close() on an already-closed handle is a no-op that raises
nothing; on an open handle it flushes (native write-sync), invokes native
close, marks the handle closed, and surfaces a non-zero native close code as
a RuntimeError — with the handle marked closed either way, so a second
close() is a no-op. -/
theorem c9_close_idempotent (sf : SoundFile) :
    (sf._file = false → SoundFile.close sf = (.ok (), sf)) ∧
    (sf._file = true →
      SoundFile.close sf =
        ((if sf.native.closeRet ≠ 0
            then .error (.runtimeError (sf_error_number sf.native.closeRet))
            else .ok ()),
         { sf with _file := false, native := { sf.native with synced := true } }) ∧
      SoundFile.close { sf with _file := false, native := { sf.native with synced := true } }
        = (.ok (), { sf with _file := false, native := { sf.native with synced := true } })) := by
  constructor
  · intro hclosed
    simp [SoundFile.close, SoundFile.closed, hclosed]
  · intro hopen
    constructor
    · simp only [SoundFile.close, SoundFile.closed, hopen, Bool.not_true, Bool.false_eq_true,
        if_false, SoundFile.flush, _check_if_closed, sf_write_sync, sf_close,
        _handle_error_number]
      by_cases hc : sf.native.closeRet = 0 <;> simp [hc]
    · simp [SoundFile.close, SoundFile.closed]

/-- C5.  A read call on an open, readable, well-formed handle with a
supported encoding returns exactly (frames actually read) × (channel count):
the row count is the request capped by the frames available (no padding of
short reads), each row has one sample per channel, and for a negative
until-end sentinel the requested count is the cached total frame count minus
the current read cursor. -/
theorem c5_read_shape (sf : SoundFile) (n : Int) (fmt : NpDtype)
    (hwf : WF sf) (hm : sf.mode ≠ WRITE) (hfmt : fmt ≠ .other) :
    ∃ rows sf', SoundFile.read sf n fmt = (.ok rows, sf') ∧
      rows.length = readCount sf n ∧
      (∀ r ∈ rows, r.length = sf.channels) ∧
      (n < 0 → readCount sf n = sf.frames - sf.native.readPos) := by
  obtain ⟨hopen, hfr, hch, hrows, hpos, herr⟩ := hwf
  refine ⟨_, _, read_ok sf n fmt ⟨hopen, hfr, hch, hrows, hpos, herr⟩ hm hfmt, ?_, ?_, ?_⟩
  · have h1 : readCount sf n ≤ sf.native.data.length - sf.native.readPos := by
      simp only [readCount, availFrames]
      exact min_le_right _ _
    simp only [List.length_take, List.length_drop]
    omega
  · intro r hr
    rw [hch]
    exact hrows r (List.mem_of_mem_drop (List.mem_of_mem_take hr))
  · intro hn
    simp only [readCount, if_pos hn, availFrames, min_self]
    omega

/-- C7.  A write_slice (`__setitem__`) call on a writable handle whose data
frame count differs from the normalized range length raises an IndexError
naming both lengths, and the handle state is unchanged (no write is
performed). -/
theorem c7_write_slice_length_mismatch (sf : SoundFile) (f : PyFrame) (arr : NpArray)
    (s t : Int) (hm : sf.mode ≠ READ) (hb : _get_slice_bounds sf f = .ok (s, t))
    (hlen : t - s ≠ (arr.data.length : Int)) :
    SoundFile.setitem sf f arr =
      (.error (.indexError ("Could not fit data of length " ++ toString arr.data.length
        ++ " into slice of length " ++ toString (t - s))), sf) := by
  simp only [SoundFile.setitem, hm, if_neg, hb]
  rw [if_pos hlen]
  simp

/-- C8.  A successful read_slice (`__getitem__`) call returns the float64
data of the normalized range (stop − start frames starting at start) and
leaves the handle — in particular the native read cursor — exactly as it
was: the final state equals the initial state. -/
theorem c8_read_slice_restores_cursor (sf : SoundFile) (f : PyFrame) (s t : Int)
    (hwf : WF sf) (hm : sf.mode ≠ WRITE)
    (hb : _get_slice_bounds sf f = .ok (s, t)) :
    SoundFile.getitem sf (.one f) =
      (.ok (.arr2 ((sf.native.data.drop s.toNat).take (t - s).toNat)), sf) :=
  getitem_ok sf f s t hwf hm hb

lemma sliceIndices_default_step (a b : Option Int) (n : Nat) (s t st : Int)
    (h : sliceIndices a b none n = .ok (s, t, st)) : st = 1 := by
  simp only [sliceIndices, Option.getD_none] at h
  norm_num at h
  exact h.2.2.symm

/-- C6.  Slice bounds are normalized against the frame count exactly as
CPython's `slice.indices` prescribes, with start > stop clamped to the empty
range (stop set to start); read_slice (`__getitem__`) on an empty range
(start = stop) returns a zero-frame array and does not raise. -/
theorem c6_slice_clamp_empty (sf : SoundFile) (a b : Option Int) (f : PyFrame) (s : Int)
    (hwf : WF sf) (hm : sf.mode ≠ WRITE) :
    (∀ s0 t0 st, sliceIndices a b none sf.frames = .ok (s0, t0, st) →
      _get_slice_bounds sf (.slc a b none) = .ok (s0, if s0 > t0 then s0 else t0)) ∧
    (_get_slice_bounds sf f = .ok (s, s) →
      SoundFile.getitem sf (.one f) = (.ok (.arr2 []), sf)) := by
  constructor
  · intro s0 t0 st h
    have hst := sliceIndices_default_step a b sf.frames s0 t0 st h
    subst hst
    simp only [_get_slice_bounds, h]
    rw [if_neg (by omega : ¬ (1 : Int) ≠ 1)]
    by_cases hgt : s0 > t0
    · rw [if_pos hgt, if_pos hgt]
    · rw [if_neg hgt, if_neg hgt]
  · intro hb
    have h := getitem_ok sf f s s hwf hm hb
    simpa using h

/-- C10.  A two-dimensional slice access whose second (channel) component
is the falsy selector 0 behaves exactly like the one-dimensional access:
the channel selection is skipped and the full two-dimensional
(frames × channels) array is returned, never the data of channel 0 alone. -/
theorem c10_falsy_channel_selector (sf : SoundFile) (f : PyFrame) :
    SoundFile.getitem sf (.two f (.idx 0)) = SoundFile.getitem sf (.one f) ∧
    (∀ res sf', SoundFile.getitem sf (.one f) = (.ok res, sf') →
      ∃ rows, res = .arr2 rows) := by
  constructor
  · show getitemCore sf f (some (.idx 0)) = getitemCore sf f none
    have ha : ∀ (c : Nat) (rows : List (List Int)),
        applySecond c rows (some (.idx 0)) = applySecond c rows none := by
      intro c rows
      simp [applySecond, truthy]
    unfold getitemCore
    simp only [ha]
  · intro res sf' h
    simp only [SoundFile.getitem] at h
    unfold getitemCore at h
    split at h
    · exact absurd h (by simp)
    · split at h
      · exact absurd h (by simp)
      · split at h
        · exact absurd h (by simp)
        · split at h
          · exact absurd h (by simp)
          · split at h
            · exact absurd h (by simp)
            · split at h
              · exact absurd h (by simp)
              next r0 heq =>
                simp only [applySecond, Except.ok.injEq] at heq
                rw [Prod.mk.injEq] at h
                obtain ⟨h1, -⟩ := h
                rw [Except.ok.injEq] at h1
                exact ⟨_, by rw [← h1, ← heq]⟩

/-- C2 counterexample.  On the open handle `sfErr`, whose native error flag
is set (non-zero), a seek call completes normally with an ok result instead
of raising an error, refuting the claim that every binding call — in
particular seek — converts a non-zero native error flag into a raised
error. -/
theorem c2_counterexample :
    sfErr.native.errFlag ≠ 0 ∧
    (SoundFile.seek sfErr 0 (SEEK_CUR ||| READ)).1 = .ok 3 := by decide

/-- Witness for C2 (amended) at the concrete handle `sfErr`. -/
theorem c2_amended_witness :
    (SoundFile.read sfErr 0 .float64).1
        = .error (.runtimeError (sf_error_number sfErr.native.errFlag)) ∧
    (SoundFile.write sfErr ⟨.int16, [[5]]⟩).1
        = .error (.runtimeError (sf_error_number sfErr.native.errFlag)) ∧
    (SoundFile.seek sfErr 2 SEEK_SET).1 = .ok (sf_seek sfErr.native 2 SEEK_SET).1 :=
  have h := c2_amended_error_checks sfErr 0 2 SEEK_SET .float64 ⟨.int16, [[5]]⟩ rfl
  ⟨h.1 (by decide) (by decide) (by decide) (by decide),
   h.2.1 (by decide) (by decide) (by decide), h.2.2⟩

/-- Witness for C3 at the concrete handles `sfR` and `sfW`. -/
theorem c3_witness :
    ((SoundFile.write sfR ⟨.int16, [[5]]⟩).1
        = .error (.runtimeError "Cannot write to file opened in READ mode!") ∧
      (SoundFile.setitem sfR (.idx 0) ⟨.int16, [[5]]⟩).1
        = .error (.runtimeError "Cannot write to file opened in READ mode!") ∧
      (SoundFile.setattr sfR "title" "x").1
        = .error (.runtimeError ("Can not change " ++ "title" ++ " of file in read mode")) ∧
      ∃ rows sf', SoundFile.read sfR (-1) .float64 = (.ok rows, sf')) ∧
    (SoundFile.read sfW (-1) .float64).1
        = .error (.runtimeError "Cannot read from file opened in WRITE mode!") :=
  ⟨(c3_mode_gating sfR (-1) .float64 ⟨.int16, [[5]]⟩ (.idx 0) "title" "x"
      ⟨rfl, rfl, rfl, by decide, by decide, rfl⟩ (by decide) (by decide)).1 rfl,
   (c3_mode_gating sfW (-1) .float64 ⟨.int16, [[5]]⟩ (.idx 0) "title" "x"
      ⟨rfl, rfl, rfl, by decide, by decide, rfl⟩ (by decide) (by decide)).2 rfl⟩

/-- Witness for C4 at the concrete closed handle `sfClosed`. -/
theorem c4_witness :
    (SoundFile.read sfClosed (-1) .float64).1
        = .error (.valueError "I/O operation on closed file") ∧
    (SoundFile.write sfClosed ⟨.int16, [[5]]⟩).1
        = .error (.valueError "I/O operation on closed file") ∧
    (SoundFile.seek sfClosed 0 SEEK_SET).1
        = .error (.valueError "I/O operation on closed file") ∧
    (SoundFile.flush sfClosed).1 = .error (.valueError "I/O operation on closed file") ∧
    SoundFile.getattr sfClosed "title"
        = .error (.valueError "I/O operation on closed file") ∧
    (SoundFile.setattr sfClosed "title" "x").1
        = .error (.valueError "I/O operation on closed file") :=
  c4_closed_handle sfClosed (-1) 0 SEEK_SET .float64 ⟨.int16, [[5]]⟩ "title" "x"
    rfl (by decide)

/-- Witness for C5 at the concrete handle `sfRW` with a request of 9 frames
(only 4 are available, so a short read of 4 frames results). -/
theorem c5_witness :
    ∃ rows sf', SoundFile.read sfRW 9 .int16 = (.ok rows, sf') ∧
      rows.length = readCount sfRW 9 ∧
      (∀ r ∈ rows, r.length = sfRW.channels) ∧
      ((9 : Int) < 0 → readCount sfRW 9 = sfRW.frames - sfRW.native.readPos) :=
  c5_read_shape sfRW 9 .int16 ⟨rfl, rfl, rfl, by decide, by decide, rfl⟩
    (by decide) (by decide)

/-- Witness for C6 at the concrete handle `sfRW` with the backwards slice
3:1, which clamps to the empty range (3, 3). -/
theorem c6_witness :
    (_get_slice_bounds sfRW (.slc (some 3) (some 1) none)
        = .ok (3, if (3 : Int) > 1 then 3 else 1)) ∧
    SoundFile.getitem sfRW (.one (.slc (some 3) (some 1) none)) = (.ok (.arr2 []), sfRW) :=
  have h := c6_slice_clamp_empty sfRW (some 3) (some 1) (.slc (some 3) (some 1) none) 3
    ⟨rfl, rfl, rfl, by decide, by decide, rfl⟩ (by decide)
  ⟨h.1 3 1 1 (by decide), h.2 (by decide)⟩

/-- Witness for C7: writing a 5-frame array into the 3-frame range 0:3 of
`sfRW` fails with the length-mismatch IndexError. -/
theorem c7_witness :
    SoundFile.setitem sfRW (.slc (some 0) (some 3) none) ⟨.int16, [[0],[0],[0],[0],[0]]⟩ =
      (.error (.indexError ("Could not fit data of length "
        ++ toString (⟨.int16, [[0],[0],[0],[0],[0]]⟩ : NpArray).data.length
        ++ " into slice of length " ++ toString ((3 : Int) - 0))), sfRW) :=
  c7_write_slice_length_mismatch sfRW (.slc (some 0) (some 3) none)
    ⟨.int16, [[0],[0],[0],[0],[0]]⟩ 0 3 (by decide) (by decide) (by decide)

/-- Witness for C8 at the concrete handle `sfRW` with the slice 1:3. -/
theorem c8_witness :
    SoundFile.getitem sfRW (.one (.slc (some 1) (some 3) none)) =
      (.ok (.arr2 ((sfRW.native.data.drop (1 : Int).toNat).take ((3 : Int) - 1).toNat)), sfRW) :=
  c8_read_slice_restores_cursor sfRW (.slc (some 1) (some 3) none) 1 3
    ⟨rfl, rfl, rfl, by decide, by decide, rfl⟩ (by decide) (by decide)

/-- Witness for C9 at the closed handle `sfClosed` and the open handle
`sfBadClose` whose native close reports error code 2. -/
theorem c9_witness :
    SoundFile.close sfClosed = (.ok (), sfClosed) ∧
    (SoundFile.close sfBadClose =
        ((if sfBadClose.native.closeRet ≠ 0
            then .error (.runtimeError (sf_error_number sfBadClose.native.closeRet))
            else .ok ()),
         sfBadClosed) ∧
      SoundFile.close sfBadClosed = (.ok (), sfBadClosed)) :=
  ⟨(c9_close_idempotent sfClosed).1 rfl, (c9_close_idempotent sfBadClose).2 rfl⟩

/-- Witness for C10 at the concrete handle `sfRW`. -/
theorem c10_witness :
    SoundFile.getitem sfRW (.two (.slc none none none) (.idx 0))
        = SoundFile.getitem sfRW (.one (.slc none none none)) ∧
    ∃ rows, NpResult.arr2 [[1], [2], [3], [4]] = NpResult.arr2 rows :=
  ⟨(c10_falsy_channel_selector sfRW (.slc none none none)).1,
   (c10_falsy_channel_selector sfRW (.slc none none none)).2
     (.arr2 [[1], [2], [3], [4]]) sfRW (by decide)⟩
